import Mathlib

/-!
Shallow embedding of `src/invoice_generator.py` (anjor/invoice-generator).

The program reads a JSON configuration, validates it, computes invoice
amounts and labels, and renders a PDF.  We model parsed JSON values with
Python semantics where they matter for validation: `bool` is a subclass of
`int` (so `isinstance(True, (int, float))` holds and `True` compares as `1`),
dictionaries are association lists, and `if x:` uses truthiness.
Python floats are modelled exactly by rationals; the PDF side effect is
modelled by `generate_invoice` returning the rendered content
(`RenderedInvoice`, holding the output file name) or an error.
-/

namespace InvoiceGen

/-- A parsed JSON value, as Python represents it after `json.load`. -/
inductive JValue where
  | null
  | bool (b : Bool)
  | int (n : Int)
  | float (q : ℚ)
  | str (s : String)
  | list (elems : List JValue)

/-- A parsed JSON object (Python dict): an association list of key/value pairs. -/
abbrev Config := List (String × JValue)

/-- Python `field in config`. -/
def hasField (c : Config) (f : String) : Bool :=
  (c.lookup f).isSome

/-- Python `config[field]` where the caller has checked presence
(absent keys are mapped to `null`, which fails every type check just as a
`KeyError` aborts the Python program). -/
def getField (c : Config) (f : String) : JValue :=
  (c.lookup f).getD .null

/-- Python `config.get(field, default)`. -/
def getOr (c : Config) (f : String) (d : JValue) : JValue :=
  (c.lookup f).getD d

/-- Python `isinstance(v, (int, float))`; `bool` is a subclass of `int`. -/
def isNumber : JValue → Bool
  | .int _ => true
  | .float _ => true
  | .bool _ => true
  | _ => false

/-- Numeric value of a Python number (`True = 1`, `False = 0`);
also models `float(v)` on values that pass the `isinstance` check. -/
def numVal : JValue → ℚ
  | .int n => (n : ℚ)
  | .float q => q
  | .bool b => if b then 1 else 0
  | _ => 0

/-- Python `isinstance(v, list) and n <= len(v)`. -/
def listOkAtLeast (v : JValue) (n : Nat) : Bool :=
  match v with
  | .list xs => n ≤ xs.length
  | _ => false

/-- The elements of a JSON list value, if it is a list. -/
def listElems : JValue → Option (List JValue)
  | .list xs => some xs
  | _ => none

/-- Python truthiness, used by `if include_vat:`. -/
def truthy : JValue → Bool
  | .null => false
  | .bool b => b
  | .int n => n != 0
  | .float q => q != 0
  | .str s => s != ""
  | .list xs => !xs.isEmpty

/-- Python `v == s` for a string literal `s` on the right: equality across
distinct (non-numeric) types is `False`. -/
def isStrEq : JValue → String → Bool
  | .str s, t => s == t
  | _, _ => false

/-- The `currency_symbols` dict of `get_currency_symbol`. -/
def currency_symbols : List (String × String) :=
  [("USD", "$"), ("GBP", "£"), ("EUR", "€")]

/-- `get_currency_symbol` (source lines 15-21): dict lookup defaulting to `"$"`. -/
def get_currency_symbol (currency : String) : String :=
  (currency_symbols.lookup currency).getD "$"

/-- The `required_fields` list of `validate_config` (source lines 48-51). -/
def required_fields : List String :=
  ["company_name", "company_address", "bank_details",
   "client_name", "client_address", "rate"]

/-- The message raised for a missing required field (source line 55). -/
def missingFieldMsg (f : String) : String :=
  "Missing required configuration field: '" ++ f ++ "'"

/-- The `for field in required_fields` presence loop of `validate_config`
(source lines 53-55): raises on the first field absent from the dict. -/
def checkRequired (c : Config) : List String → Except String Unit
  | [] => .ok ()
  | f :: fs => if hasField c f then checkRequired c fs else .error (missingFieldMsg f)

/-- `validate_config` (source lines 46-67): presence of the six required
fields, then rate positivity, then the three list-shape checks, raising
`ValueError` (modelled as `Except.error` with the message) on the first
violation. -/
def validate_config (c : Config) : Except String Unit :=
  match checkRequired c required_fields with
  | .error e => .error e
  | .ok _ =>
    if isNumber (getField c "rate") && decide (0 < numVal (getField c "rate")) then
      if listOkAtLeast (getField c "company_address") 2 then
        if listOkAtLeast (getField c "client_address") 1 then
          if listOkAtLeast (getField c "bank_details") 1 then
            .ok ()
          else .error "Bank details must be a list with at least 1 line"
        else .error "Client address must be a list with at least 1 line"
      else .error "Company address must be a list with at least 2 lines"
    else .error "Rate must be a positive number"

/-- The input to `load_config`: the named file may be absent, hold text that
is not valid JSON, or parse to a configuration object. -/
inductive FileInput where
  | missing
  | badJson
  | parsed (c : Config)

/-- The terminal failures of `load_config` (source lines 35-43): each is
logged and the process exits with status 1. -/
inductive LoadError where
  | fileNotFound
  | jsonDecodeError
  | validationError (msg : String)
deriving DecidableEq

/-- `load_config` (source lines 23-43): existence check, then JSON parse,
then `validate_config`; the first failure aborts. -/
def load_config : FileInput → Except LoadError Config
  | .missing => .error .fileNotFound
  | .badJson => .error .jsonDecodeError
  | .parsed c =>
    match validate_config c with
    | .error m => .error (.validationError m)
    | .ok _ => .ok c

/-- The derived invoice quantities computed inside `generate_invoice`
(source lines 74-100 and 168-187). `vat_amount = none` means no VAT value
is produced. -/
structure InvoiceModel where
  currency_symbol : String
  unit_header : String
  rate_header : String
  include_vat : Bool
  rate : ℚ
  amount_excl_vat : ℚ
  vat_amount : Option ℚ
  total_amount : ℚ
  headers : List String

/-- The unit/rate header labels chosen from `unit_of_work`
(source lines 84-96). -/
def unitHeaders (u : JValue) : String × String :=
  if isStrEq u "DAILY" then ("Number of Days", "Daily Rate")
  else if isStrEq u "WEEKLY" then ("Number of Weeks", "Weekly Rate")
  else if isStrEq u "MONTHLY" then ("Number of Months", "Monthly Rate")
  else ("Number of Hours", "Hourly Rate")

/-- The currency symbol as `generate_invoice` computes it (source lines
81-82): `config.get("currency", "USD")` fed to the `get_currency_symbol`
dict lookup; a non-string value never matches a key, yielding `"$"`. -/
def symbolOf : JValue → String
  | .str s => get_currency_symbol s
  | _ => "$"

/-- The pure computation of `generate_invoice` (source lines 74-100,
168-187): rate conversion, currency symbol, header labels, VAT flag,
`amount_excl_vat = hours * rate`, and when `include_vat` is truthy
`vat_amount = amount_excl_vat * 0.2` and
`total_amount = amount_excl_vat + vat_amount`, else
`total_amount = hours * rate` (line 100). -/
def buildModel (c : Config) (hours : ℚ) : InvoiceModel :=
  let rate := numVal (getField c "rate")
  let currency_symbol := symbolOf (getOr c "currency" (.str "USD"))
  let uh := unitHeaders (getOr c "unit_of_work" (.str "HOURLY"))
  let include_vat := truthy (getOr c "include_vat" (.bool false))
  let amount_excl_vat := hours * rate
  { currency_symbol := currency_symbol
    unit_header := uh.1
    rate_header := uh.2
    include_vat := include_vat
    rate := rate
    amount_excl_vat := amount_excl_vat
    vat_amount := if include_vat then some (amount_excl_vat * (2/10)) else none
    total_amount :=
      if include_vat then amount_excl_vat + amount_excl_vat * (2/10)
      else hours * rate
    headers :=
      ["Description", uh.1, uh.2] ++
        (if include_vat then ["Amount", "VAT (20%)", "Total Amount"]
         else ["Total Amount"]) }

/-- The two-column header table of `generate_invoice` (source lines
127-140): row 0 pairs `company_address[0]` with the invoice number, row 1
pairs `company_address[1]` with the date, and every further address line
becomes a row whose right cell is the empty string.  The unguarded
subscripts raise `IndexError` when the list has fewer than two elements,
modelled by `none`. -/
def headerRows (company_address : List JValue) (invoice_number date : String) :
    Option (List (JValue × String)) :=
  match company_address with
  | a0 :: a1 :: rest =>
    some ((a0, "Invoice Number: " ++ invoice_number) ::
          (a1, "Date: " ++ date) ::
          rest.map (fun l => (l, "")))
  | _ => none

/-- A failure of `generate_invoice`: either `load_config` aborted the
process, or an unguarded list subscript raised `IndexError` (caught by
`main` and turned into an exit). -/
inductive GenError where
  | loadError (e : LoadError)
  | indexError
deriving DecidableEq

/-- The rendered output of `generate_invoice`: the document written to
`file_name`.  A `RenderedInvoice` value is produced exactly when the
program writes the PDF. -/
structure RenderedInvoice where
  file_name : String
  model : InvoiceModel
  headerTable : List (JValue × String)
  client_name : JValue
  client_address : List JValue
  bank_details : List JValue

/-- `generate_invoice` (source lines 70-241): loads and validates the
configuration first, then builds the document contents and writes
`invoice_<invoice_number>.pdf`.  An error result means the process exits
without producing the file. -/
def generate_invoice (input : FileInput) (invoice_number date : String)
    (hours : ℚ) : Except GenError RenderedInvoice :=
  match load_config input with
  | .error e => .error (.loadError e)
  | .ok c =>
    let addr := (listElems (getField c "company_address")).getD []
    match headerRows addr invoice_number date with
    | none => .error .indexError
    | some rows =>
      .ok { file_name := "invoice_" ++ invoice_number ++ ".pdf"
            model := buildModel c hours
            headerTable := rows
            client_name := getField c "client_name"
            client_address := (listElems (getField c "client_address")).getD []
            bank_details := (listElems (getField c "bank_details")).getD [] }

/-- `required_fields.find? (fun f => not (hasField c f))`: the first
required field, in the fixed order, absent from the configuration. -/
def firstMissing (c : Config) : Option String :=
  required_fields.find? (fun f => !hasField c f)

/-- A sample valid configuration (the spec's example: rate 50). -/
def cfg0 : Config :=
  [("company_name", .str "Acme Ltd"),
   ("company_address", .list [.str "1 High Street", .str "London"]),
   ("bank_details", .list [.str "IBAN GB00"]),
   ("client_name", .str "Client Co"),
   ("client_address", .list [.str "2 Broad Street"]),
   ("rate", .int 50)]

/-- `cfg0` with VAT enabled. -/
def cfg0vat : Config :=
  cfg0 ++ [("include_vat", .bool true)]

/-- `cfg0` with `unit_of_work` set to `DAILY`. -/
def cfg0daily : Config :=
  cfg0 ++ [("unit_of_work", .str "DAILY")]

/-- `cfg0` with the required `rate` field removed. -/
def cfgNoRate : Config :=
  [("company_name", .str "Acme Ltd"),
   ("company_address", .list [.str "1 High Street", .str "London"]),
   ("bank_details", .list [.str "IBAN GB00"]),
   ("client_name", .str "Client Co"),
   ("client_address", .list [.str "2 Broad Street"])]

/-- `cfg0` with `company_name` removed and a negative rate: two violations
at once. -/
def cfgNoNameBadRate : Config :=
  [("company_address", .list [.str "1 High Street", .str "London"]),
   ("bank_details", .list [.str "IBAN GB00"]),
   ("client_name", .str "Client Co"),
   ("client_address", .list [.str "2 Broad Street"]),
   ("rate", .int (-5))]

/-- `cfg0` with rate -5 (the spec's failing example). -/
def cfgRateNeg : Config :=
  [("company_name", .str "Acme Ltd"),
   ("company_address", .list [.str "1 High Street", .str "London"]),
   ("bank_details", .list [.str "IBAN GB00"]),
   ("client_name", .str "Client Co"),
   ("client_address", .list [.str "2 Broad Street"]),
   ("rate", .int (-5))]

/-- `cfg0` with the boolean `true` as rate. -/
def cfgBoolRate : Config :=
  [("company_name", .str "Acme Ltd"),
   ("company_address", .list [.str "1 High Street", .str "London"]),
   ("bank_details", .list [.str "IBAN GB00"]),
   ("client_name", .str "Client Co"),
   ("client_address", .list [.str "2 Broad Street"]),
   ("rate", .bool true)]

/-! ## Helper lemmas -/

theorem isStrEq_iff (v : JValue) (s : String) : isStrEq v s = true ↔ v = .str s := by
  cases v <;> simp [isStrEq]

theorem checkRequired_ok (c : Config) (fs : List String)
    (h : ∀ f ∈ fs, hasField c f = true) : checkRequired c fs = .ok () := by
  induction fs with
  | nil => rfl
  | cons f fs ih =>
    have hf := h f (by simp)
    simp [checkRequired, hf]
    exact ih fun g hg => h g (by simp [hg])

theorem checkRequired_first (c : Config) (fs : List String) (g : String)
    (h : fs.find? (fun f => !hasField c f) = some g) :
    checkRequired c fs = .error (missingFieldMsg g) := by
  induction fs with
  | nil => simp [List.find?] at h
  | cons f fs ih =>
    by_cases hf : hasField c f = true
    · rw [List.find?] at h
      simp [hf] at h
      simp [checkRequired, hf]
      exact ih h
    · rw [List.find?] at h
      simp [hf] at h
      simp [checkRequired, hf, ← h]

theorem checkRequired_error_of_missing (c : Config) (fs : List String)
    (h : ∃ f ∈ fs, hasField c f = false) :
    ∃ g ∈ fs, hasField c g = false ∧ checkRequired c fs = .error (missingFieldMsg g) := by
  induction fs with
  | nil => simp at h
  | cons f fs ih =>
    by_cases hf : hasField c f = true
    · obtain ⟨f0, hf0mem, hf0⟩ := h
      have hmem : f0 ∈ fs := by
        rcases List.mem_cons.mp hf0mem with rfl | hm
        · rw [hf] at hf0; cases hf0
        · exact hm
      obtain ⟨g, hg, hgf, hge⟩ := ih ⟨f0, hmem, hf0⟩
      exact ⟨g, by simp [hg], hgf, by simp [checkRequired, hf, hge]⟩
    · have hf' : hasField c f = false := by simpa using hf
      exact ⟨f, by simp, hf', by simp [checkRequired, hf']⟩

theorem validate_ok_iff (c : Config) :
    validate_config c = .ok () ↔
      (checkRequired c required_fields = .ok () ∧
       isNumber (getField c "rate") = true ∧ 0 < numVal (getField c "rate") ∧
       listOkAtLeast (getField c "company_address") 2 = true ∧
       listOkAtLeast (getField c "client_address") 1 = true ∧
       listOkAtLeast (getField c "bank_details") 1 = true) := by
  unfold validate_config
  cases hck : checkRequired c required_fields with
  | error e => simp [hck]
  | ok u =>
    cases u
    split_ifs with h1 h2 h3 h4 <;> simp_all

theorem listElems_two_of_ok (v : JValue) (h : listOkAtLeast v 2 = true) :
    ∃ a0 a1 rest, listElems v = some (a0 :: a1 :: rest) := by
  cases v <;> simp [listOkAtLeast] at h
  case list xs =>
    obtain (_ | ⟨a0, (_ | ⟨a1, rest⟩)⟩) := xs
    · simp at h
    · simp at h
    · exact ⟨a0, a1, rest, rfl⟩

/-! ## Claim theorems -/

/-- C1: for every validated configuration and positive units, the computed
amounts satisfy subtotal = units × rate; when include_vat is truthy,
vat_amount = 0.20 × subtotal (0.20 = 2/10 exactly in the rational model of
Python float arithmetic) and total = subtotal + vat_amount; when include_vat
is falsy, total = subtotal and no VAT value is produced (`vat_amount = none`). -/
theorem C1_invoice_amounts (c : Config) (u : ℚ)
    (hv : validate_config c = .ok ()) (hu : 0 < u) :
    (buildModel c u).amount_excl_vat = u * numVal (getField c "rate") ∧
    ((buildModel c u).include_vat = true →
      (buildModel c u).vat_amount = some ((2/10) * (buildModel c u).amount_excl_vat) ∧
      (buildModel c u).total_amount =
        (buildModel c u).amount_excl_vat + (2/10) * (buildModel c u).amount_excl_vat) ∧
    ((buildModel c u).include_vat = false →
      (buildModel c u).total_amount = (buildModel c u).amount_excl_vat ∧
      (buildModel c u).vat_amount = none) := by
  refine ⟨rfl, fun hvat => ?_, fun hnovat => ?_⟩
  · have h : truthy (getOr c "include_vat" (.bool false)) = true := by
      simpa [buildModel] using hvat
    simp [buildModel, h, mul_comm]
  · have h : truthy (getOr c "include_vat" (.bool false)) = false := by
      simpa [buildModel] using hnovat
    simp [buildModel, h]

/-- C1 witness: the sample VAT configuration at 10 units. -/
theorem C1_invoice_amounts_witness :
    (buildModel cfg0vat 10).amount_excl_vat = 10 * numVal (getField cfg0vat "rate") ∧
    ((buildModel cfg0vat 10).include_vat = true →
      (buildModel cfg0vat 10).vat_amount =
        some ((2/10) * (buildModel cfg0vat 10).amount_excl_vat) ∧
      (buildModel cfg0vat 10).total_amount =
        (buildModel cfg0vat 10).amount_excl_vat +
          (2/10) * (buildModel cfg0vat 10).amount_excl_vat) ∧
    ((buildModel cfg0vat 10).include_vat = false →
      (buildModel cfg0vat 10).total_amount = (buildModel cfg0vat 10).amount_excl_vat ∧
      (buildModel cfg0vat 10).vat_amount = none) :=
  C1_invoice_amounts cfg0vat 10 (by rfl) (by decide)

/-- C2: for every validated configuration with VAT enabled and positive
units, the total (subtotal plus 20% of subtotal, each step exact in the
rational model of the float arithmetic) equals subtotal × 1.2
(1.2 = 12/10). -/
theorem C2_total_times_1_2 (c : Config) (u : ℚ)
    (hv : validate_config c = .ok ()) (hu : 0 < u)
    (hvat : (buildModel c u).include_vat = true) :
    (buildModel c u).total_amount = (buildModel c u).amount_excl_vat * (12/10) := by
  have h : truthy (getOr c "include_vat" (.bool false)) = true := by
    simpa [buildModel] using hvat
  simp [buildModel, h]
  ring

/-- C2 witness: the sample VAT configuration at 10 units. -/
theorem C2_total_times_1_2_witness :
    (buildModel cfg0vat 10).total_amount =
      (buildModel cfg0vat 10).amount_excl_vat * (12/10) :=
  C2_total_times_1_2 cfg0vat 10 (by rfl) (by decide) (by rfl)

/-- C3: on configurations containing all six required fields,
validate_config accepts exactly when rate is a (Python) number greater than
zero, company_address is a list of length ≥ 2, client_address a list of
length ≥ 1 and bank_details a list of length ≥ 1; in particular a rate ≤ 0
is always rejected.  (Per Python semantics, `bool` counts as a number.) -/
theorem C3_validate_exact (c : Config)
    (hall : ∀ f ∈ required_fields, hasField c f = true) :
    (validate_config c = .ok () ↔
      (isNumber (getField c "rate") = true ∧ 0 < numVal (getField c "rate") ∧
       listOkAtLeast (getField c "company_address") 2 = true ∧
       listOkAtLeast (getField c "client_address") 1 = true ∧
       listOkAtLeast (getField c "bank_details") 1 = true)) ∧
    (numVal (getField c "rate") ≤ 0 → validate_config c ≠ .ok ()) := by
  have hck := checkRequired_ok c required_fields hall
  constructor
  · rw [validate_ok_iff]
    simp [hck]
  · intro hle hok
    have hpos := ((validate_ok_iff c).1 hok).2.2.1
    exact absurd hpos (not_lt.mpr hle)

/-- C3 witness: the sample valid configuration. -/
theorem C3_validate_exact_witness :
    (validate_config cfg0 = .ok () ↔
      (isNumber (getField cfg0 "rate") = true ∧ 0 < numVal (getField cfg0 "rate") ∧
       listOkAtLeast (getField cfg0 "company_address") 2 = true ∧
       listOkAtLeast (getField cfg0 "client_address") 1 = true ∧
       listOkAtLeast (getField cfg0 "bank_details") 1 = true)) ∧
    (numVal (getField cfg0 "rate") ≤ 0 → validate_config cfg0 ≠ .ok ()) :=
  C3_validate_exact cfg0 (by decide)

/-- C4: a parsed configuration missing a required field fails validation
with the message naming a missing required field, and loading aborts (so no
default is ever substituted for it). -/
theorem C4_missing_field_reported (c : Config) (f : String)
    (hf : f ∈ required_fields) (hmiss : hasField c f = false) :
    ∃ g ∈ required_fields, hasField c g = false ∧
      validate_config c = .error (missingFieldMsg g) ∧
      load_config (.parsed c) = .error (.validationError (missingFieldMsg g)) := by
  obtain ⟨g, hg, hgf, hge⟩ := checkRequired_error_of_missing c required_fields ⟨f, hf, hmiss⟩
  refine ⟨g, hg, hgf, ?_, ?_⟩
  · simp [validate_config, hge]
  · simp [load_config, validate_config, hge]

/-- C4 witness: the sample configuration with `rate` removed. -/
theorem C4_missing_field_reported_witness :
    ∃ g ∈ required_fields, hasField cfgNoRate g = false ∧
      validate_config cfgNoRate = .error (missingFieldMsg g) ∧
      load_config (.parsed cfgNoRate) = .error (.validationError (missingFieldMsg g)) :=
  C4_missing_field_reported cfgNoRate "rate" (by decide) (by rfl)

/-- C5: the table header labels are chosen from unit_of_work by the fixed
mapping DAILY → ("Number of Days","Daily Rate"), WEEKLY →
("Number of Weeks","Weekly Rate"), MONTHLY → ("Number of Months",
"Monthly Rate"); an absent key (defaulting to "HOURLY") and every other
value — HOURLY included — yield ("Number of Hours","Hourly Rate"), and the
computation is total, so no error is raised. -/
theorem C5_unit_rate_headers (c : Config) (u : ℚ) :
    (getOr c "unit_of_work" (.str "HOURLY") = .str "DAILY" →
      (buildModel c u).unit_header = "Number of Days" ∧
      (buildModel c u).rate_header = "Daily Rate") ∧
    (getOr c "unit_of_work" (.str "HOURLY") = .str "WEEKLY" →
      (buildModel c u).unit_header = "Number of Weeks" ∧
      (buildModel c u).rate_header = "Weekly Rate") ∧
    (getOr c "unit_of_work" (.str "HOURLY") = .str "MONTHLY" →
      (buildModel c u).unit_header = "Number of Months" ∧
      (buildModel c u).rate_header = "Monthly Rate") ∧
    (hasField c "unit_of_work" = false →
      (buildModel c u).unit_header = "Number of Hours" ∧
      (buildModel c u).rate_header = "Hourly Rate") ∧
    (getOr c "unit_of_work" (.str "HOURLY") ≠ .str "DAILY" →
     getOr c "unit_of_work" (.str "HOURLY") ≠ .str "WEEKLY" →
     getOr c "unit_of_work" (.str "HOURLY") ≠ .str "MONTHLY" →
      (buildModel c u).unit_header = "Number of Hours" ∧
      (buildModel c u).rate_header = "Hourly Rate") := by
  refine ⟨fun h => ?_, fun h => ?_, fun h => ?_, fun h => ?_, fun h1 h2 h3 => ?_⟩
  · simp [buildModel, unitHeaders, h, isStrEq]
  · simp [buildModel, unitHeaders, h, isStrEq]
  · simp [buildModel, unitHeaders, h, isStrEq]
  · have hl : c.lookup "unit_of_work" = none := by
      cases hl : c.lookup "unit_of_work" with
      | none => rfl
      | some v => simp [hasField, hl] at h
    simp [buildModel, getOr, hl, unitHeaders, isStrEq]
  · simp [buildModel, unitHeaders, isStrEq_iff, h1, h2, h3]

/-- C5 witness: the sample configuration with unit_of_work DAILY. -/
theorem C5_unit_rate_headers_witness :
    (buildModel cfg0daily 1).unit_header = "Number of Days" ∧
    (buildModel cfg0daily 1).rate_header = "Daily Rate" :=
  (C5_unit_rate_headers cfg0daily 1).1 rfl

/-- C6: get_currency_symbol maps "USD" to "$", "GBP" to "£", "EUR" to "€"
and every other string to "$"; an absent currency key defaults to "USD",
producing "$"; the lookup is total, so no error is raised. -/
theorem C6_currency_symbol (currency : String) (c : Config) (u : ℚ)
    (habs : hasField c "currency" = false) :
    get_currency_symbol currency =
      (if currency = "USD" then "$"
       else if currency = "GBP" then "£"
       else if currency = "EUR" then "€"
       else "$") ∧
    (buildModel c u).currency_symbol = "$" := by
  constructor
  · simp only [get_currency_symbol, currency_symbols, List.lookup]
    cases e1 : currency == "USD" <;> cases e2 : currency == "GBP" <;>
      cases e3 : currency == "EUR" <;>
      simp_all [beq_iff_eq, beq_eq_false_iff_ne]
  · have hl : c.lookup "currency" = none := by
      cases hl : c.lookup "currency" with
      | none => rfl
      | some v => simp [hasField, hl] at habs
    simp [buildModel, getOr, hl, symbolOf, get_currency_symbol, currency_symbols]

/-- C6 witness: the symbol for "GBP", and the default on a configuration
with no currency key. -/
theorem C6_currency_symbol_witness :
    get_currency_symbol "GBP" =
      (if "GBP" = "USD" then "$"
       else if "GBP" = "GBP" then "£"
       else if "GBP" = "EUR" then "€"
       else "$") ∧
    (buildModel cfg0 1).currency_symbol = "$" :=
  C6_currency_symbol "GBP" cfg0 1 (by rfl)

/-- C7: loading reports only the first violation, in the order existence →
parse → presence of the six required fields (checked in the fixed order of
`required_fields`) → per-field constraints: a missing file and unparsable
JSON abort before validation, and whenever some required field is absent
— `firstMissing` being `List.find?` over the fixed order — the reported
error names that first absent field, regardless of any constraint
violation such as a bad rate. -/
theorem C7_first_violation (c : Config) (g : String)
    (hfirst : firstMissing c = some g) :
    load_config .missing = .error .fileNotFound ∧
    load_config .badJson = .error .jsonDecodeError ∧
    validate_config c = .error (missingFieldMsg g) ∧
    load_config (.parsed c) = .error (.validationError (missingFieldMsg g)) := by
  have hce := checkRequired_first c required_fields g hfirst
  exact ⟨rfl, rfl, by simp [validate_config, hce],
         by simp [load_config, validate_config, hce]⟩

/-- C7 witness: a configuration both missing company_name and carrying
rate -5 reports the missing field, not the bad rate. -/
theorem C7_first_violation_witness :
    load_config .missing = .error .fileNotFound ∧
    load_config .badJson = .error .jsonDecodeError ∧
    validate_config cfgNoNameBadRate = .error (missingFieldMsg "company_name") ∧
    load_config (.parsed cfgNoNameBadRate) =
      .error (.validationError (missingFieldMsg "company_name")) :=
  C7_first_violation cfgNoNameBadRate "company_name" (by rfl)

/-- C8: when validation fails, generate_invoice returns the load error and
never reaches any rendering step: no `RenderedInvoice` — and hence no
`invoice_<invoice_number>.pdf` — is produced, since configuration loading
happens strictly before the output document is created. -/
theorem C8_no_output_on_invalid (c : Config) (e n d : String) (u : ℚ)
    (hv : validate_config c = .error e) :
    generate_invoice (.parsed c) n d u = .error (.loadError (.validationError e)) := by
  simp [generate_invoice, load_config, hv]

/-- C8 witness: the spec's failing example, rate -5 with units 10. -/
theorem C8_no_output_on_invalid_witness :
    generate_invoice (.parsed cfgRateNeg) "INV-001" "2024-01-15" 10 =
      .error (.loadError (.validationError "Rate must be a positive number")) :=
  C8_no_output_on_invalid cfgRateNeg "Rate must be a positive number"
    "INV-001" "2024-01-15" 10 (by rfl)

/-- C9: for every configuration accepted by validate_config,
company_address is a list with at least two elements, so the unguarded
subscripts `company_address[0]` and `company_address[1]` of the header
block are in bounds: the header table is built with row 0 = (first address
line, invoice number), row 1 = (second address line, date), and each
further address line giving one extra row whose right cell is empty; in
particular generate_invoice never returns the IndexError outcome. -/
theorem C9_header_rows_in_bounds (c : Config) (n d : String) (u : ℚ)
    (hv : validate_config c = .ok ()) :
    ∃ a0 a1 rest,
      listElems (getField c "company_address") = some (a0 :: a1 :: rest) ∧
      headerRows (a0 :: a1 :: rest) n d =
        some ((a0, "Invoice Number: " ++ n) :: (a1, "Date: " ++ d) ::
              rest.map (fun l => (l, ""))) ∧
      generate_invoice (.parsed c) n d u ≠ .error .indexError := by
  have hca := ((validate_ok_iff c).1 hv).2.2.2.1
  obtain ⟨a0, a1, rest, hel⟩ := listElems_two_of_ok _ hca
  refine ⟨a0, a1, rest, hel, rfl, ?_⟩
  have hg : (listElems (getField c "company_address")).getD [] = a0 :: a1 :: rest := by
    rw [hel]; rfl
  simp [generate_invoice, load_config, hv, hg, headerRows]

/-- C9 witness: the sample valid configuration. -/
theorem C9_header_rows_in_bounds_witness :
    ∃ a0 a1 rest,
      listElems (getField cfg0 "company_address") = some (a0 :: a1 :: rest) ∧
      headerRows (a0 :: a1 :: rest) "INV-001" "2024-01-15" =
        some ((a0, "Invoice Number: " ++ "INV-001") ::
              (a1, "Date: " ++ "2024-01-15") ::
              rest.map (fun l => (l, ""))) ∧
      generate_invoice (.parsed cfg0) "INV-001" "2024-01-15" 10 ≠
        .error .indexError :=
  C9_header_rows_in_bounds cfg0 "INV-001" "2024-01-15" 10 (by rfl)

/-- C10: a configuration whose rate is the boolean `true` passes
validate_config — Python's `bool` is a subclass of `int`, so it satisfies
`isinstance(rate, (int, float))` and `True > 0` — after which
generate_invoice converts it with `float(True) = 1.0` and bills at rate 1
(3 units yield amount 3). -/
theorem C10_boolean_rate_accepted :
    validate_config cfgBoolRate = .ok () ∧
    getField cfgBoolRate "rate" = .bool true ∧
    isNumber (.bool true) = true ∧
    (buildModel cfgBoolRate 3).rate = 1 ∧
    (buildModel cfgBoolRate 3).amount_excl_vat = 3 := by
  refine ⟨rfl, rfl, rfl, rfl, ?_⟩
  show (3 : ℚ) * numVal (getField cfgBoolRate "rate") = 3
  rw [show getField cfgBoolRate "rate" = .bool true from rfl]
  norm_num [numVal]

end InvoiceGen
